import Mathlib

/-!
Shallow embedding of `src/m3u_checker.py` (an M3U playlist link checker) and
proofs of the specification claims about it.

The network layer (`requests.head`) is modelled by a `ProbeResult` oracle:
the single probe a worker performs either returns a final status code with
optional `Content-Type` and `Location` headers, or raises one of the five
exception kinds the worker catches.  All other code is translated directly.
-/

namespace M3uChecker

/-- Source lines 13-18: the `VALID_CONTENT_TYPES` list, verbatim
(including the historically duplicated `application/x-mpegURL` entry whose
case differs). -/
def VALID_CONTENT_TYPES : List String :=
  ["application/vnd.apple.mpegurl", "application/x-mpegurl", "audio/mpegurl",
   "video/mp2t", "video/mpeg", "video/x-msvideo", "video/mp4",
   "audio/mpeg", "audio/aac", "audio/ogg", "application/octet-stream",
   "application/x-mpegURL", "video/x-flv"]

/-- Source lines 20-23: the `IGNORED_CONTENT_TYPES_PATTERNS` list of regex
patterns. -/
def IGNORED_CONTENT_TYPES_PATTERNS : List String :=
  ["text/html", "application/json", "text/plain", "image/.*",
   "application/pdf", "application/xml", "text/xml"]

/-- Python `str.lower()`, modelled characterwise (ASCII case folding, which is
all the content-type alphabet uses). -/
def pyLower (s : String) : String :=
  String.mk (s.data.map Char.toLower)

/-- Python `str.strip()`: remove whitespace from both ends. -/
def pyStrip (s : String) : String :=
  String.mk ((((s.data.dropWhile Char.isWhitespace).reverse).dropWhile
    Char.isWhitespace).reverse)

/-- Python `s.split(';')[0]`: the prefix of `s` before the first `';'` (all of
`s` when there is none). -/
def pySplitSemiHead (s : String) : String :=
  String.mk (s.data.takeWhile fun c => c ≠ ';')

/-- Python `s.startswith(p)`. -/
def pyStartsWith (s p : String) : Bool :=
  p.data.isPrefixOf s.data

/-- Semantics of Python `re.match(pattern, s, re.IGNORECASE)` for exactly the
patterns occurring in `IGNORED_CONTENT_TYPES_PATTERNS`: every pattern is a
literal except `image/.*`, whose trailing `.*` matches any suffix (including
the empty one).  `re.match` anchors at the start of the string only, so a
literal pattern is a prefix test; `re.IGNORECASE` is modelled by lower-casing
both sides. -/
def re_match_ignorecase (pattern s : String) : Bool :=
  if pattern = "image/.*" then pyStartsWith (pyLower s) "image/"
  else pyStartsWith (pyLower s) (pyLower pattern)

/-- The normalisation `content_type.lower().split(';')[0].strip()` appearing
verbatim at source lines 27 and 90. -/
def clean_content_type (content_type : String) : String :=
  pyStrip (pySplitSemiHead (pyLower content_type))

/-- Source lines 25-30: `is_ignored_content_type`.  The empty string is falsy
in Python, so it returns `False` immediately. -/
def is_ignored_content_type (content_type : String) : Bool :=
  if content_type = "" then false
  else
    let ct := clean_content_type content_type
    IGNORED_CONTENT_TYPES_PATTERNS.any fun pattern => re_match_ignorecase pattern ct

/-- One parsed playlist item, the dict built at source line 43:
`{'extinf': current_extinf, 'url': line, 'original_line_number': len(parsed_entries)+1}`. -/
structure Entry where
  extinf : Option String
  url : String
  original_line_number : Nat
deriving Repr, DecidableEq

/-- The loop body of `parse_m3u_content_with_extinf_str` (source lines 33-44),
with the accumulated `parsed_entries` list and the pending `current_extinf`
made explicit. -/
def parseGo (parsed_entries : List Entry) (current_extinf : Option String) :
    List String → List Entry
  | [] => parsed_entries
  | line_str :: rest =>
    let line := pyStrip line_str
    if line = "" then parseGo parsed_entries current_extinf rest
    else if pyStartsWith line "#EXTINF:" then parseGo parsed_entries (some line) rest
    else if pyStartsWith line "#" then parseGo parsed_entries current_extinf rest
    else
      parseGo
        (parsed_entries ++
          [{ extinf := current_extinf, url := line,
             original_line_number := parsed_entries.length + 1 }])
        none rest

/-- Source lines 32-46: `parse_m3u_content_with_extinf_str` (the warning print
on an empty result is I/O only and carries no data). -/
def parse_m3u_content_with_extinf_str (content_lines_str : List String) : List Entry :=
  parseGo [] none content_lines_str

/-- The parser as §4.3 of the spec words it: a pending-metadata register and a
next-index counter starting at 1, comments dropped without clearing the
register, blanks ignored, each emitted Entry taking the pending metadata and
the next sequential index, the register cleared after emission.  Used as the
refinement reference for the parser claim. -/
def parseSpec (next_index : Nat) (pending : Option String) :
    List String → List Entry
  | [] => []
  | line_str :: rest =>
    let line := pyStrip line_str
    if line = "" then parseSpec next_index pending rest
    else if pyStartsWith line "#EXTINF:" then parseSpec next_index (some line) rest
    else if pyStartsWith line "#" then parseSpec next_index pending rest
    else
      { extinf := pending, url := line, original_line_number := next_index } ::
        parseSpec (next_index + 1) none rest

/-- Outcome of the single `requests.head(url, ...)` probe issued by
`check_url_worker` (source line 87): either a response (final status code,
optional `Content-Type` header, optional `Location` header), or one of the
five exception kinds caught at source lines 106-115. -/
inductive ProbeResult where
  | success (status_code : Nat) (content_type : Option String) (location : Option String)
  | timeout
  | tooManyRedirects
  | connectionError (emsg : String)
  | requestException (ename emsg : String)
  | unexpectedError (ename emsg : String)
deriving Repr, DecidableEq

/-- Message at source line 94. -/
def msg_valid (status_code : Nat) (content_type_header : String) : String :=
  s!"有效 (状态: {status_code}, 类型: {content_type_header})"

/-- Message at source line 96. -/
def msg_ignored (status_code : Nat) (content_type_header : String) : String :=
  s!"无效 (状态: {status_code}, 类型: {content_type_header} - 通常不是流媒体)"

/-- Message at source line 99. -/
def msg_possible (status_code : Nat) (content_type_header : String) : String :=
  s!"可能有效 (状态: {status_code}, 类型: {content_type_header} - 未知)"

/-- Message at source line 101; `location_str` is `headers.get('Location', 'N/A')`. -/
def msg_redirect (status_code : Nat) (location_str : String) : String :=
  s!"无效 (重定向问题: {status_code}, 位置: {location_str})"

/-- Message at source line 103. -/
def msg_http_error (status_code : Nat) : String :=
  s!"无效 (HTTP 错误: {status_code})"

/-- Message at source line 105. -/
def msg_unknown_status (status_code : Nat) (content_type_header : String) : String :=
  s!"无效 (未知状态: {status_code}, 类型: {content_type_header})"

/-- Message at source line 107. -/
def msg_timeout : String := "无效 (连接超时)"

/-- Message at source line 109. -/
def msg_too_many_redirects : String := "无效 (重定向过多)"

/-- Message at source line 111. -/
def msg_connection_error (emsg : String) : String :=
  s!"无效 (连接错误: {emsg})"

/-- Message at source line 113. -/
def msg_request_error (ename emsg : String) : String :=
  s!"无效 (请求错误: {ename} - {emsg})"

/-- Message at source line 115. -/
def msg_unexpected_error (ename emsg : String) : String :=
  s!"无效 (检查URL时发生线程内未知错误: {ename} - {emsg})"

/-- Source lines 75-115: `check_url_worker`.  Takes the entry, the timeout and
the probe's outcome; returns the `(entry, is_valid, message)` tuple.  The
timeout only parametrises the network call, which the `probe_outcome`
argument models. -/
def check_url_worker (entry : Entry) (timeout : Nat) (probe_outcome : ProbeResult) :
    Entry × Bool × String :=
  match probe_outcome with
  | .success status_code content_type location =>
    let content_type_header := content_type.getD ""
    let content_type_cleaned := clean_content_type content_type_header
    if status_code = 200 then
      if VALID_CONTENT_TYPES.any fun valid_ct => valid_ct == content_type_cleaned then
        (entry, true, msg_valid status_code content_type_header)
      else if is_ignored_content_type content_type_cleaned then
        (entry, false, msg_ignored status_code content_type_header)
      else
        (entry, true, msg_possible status_code content_type_header)
    else if 300 ≤ status_code ∧ status_code < 400 then
      (entry, false, msg_redirect status_code (location.getD "N/A"))
    else if 400 ≤ status_code ∧ status_code < 600 then
      (entry, false, msg_http_error status_code)
    else
      (entry, false, msg_unknown_status status_code content_type_header)
  | .timeout => (entry, false, msg_timeout)
  | .tooManyRedirects => (entry, false, msg_too_many_redirects)
  | .connectionError emsg => (entry, false, msg_connection_error emsg)
  | .requestException ename emsg => (entry, false, msg_request_error ename emsg)
  | .unexpectedError ename emsg => (entry, false, msg_unexpected_error ename emsg)

/-- The dispatch test at source line 186:
`entry['url'].startswith(('http://', 'https://'))`. -/
def is_http_url (url : String) : Bool :=
  pyStartsWith url "http://" || pyStartsWith url "https://"

/-- Source lines 183-190: the entries packed into `tasks_to_run` (each is paired
with the timeout there; the timeout is passed separately here). -/
def tasks_to_run (all_m3u_entries : List Entry) : List Entry :=
  all_m3u_entries.filter fun entry => is_http_url entry.url

/-- Source lines 184-190: `skipped_non_http_count`, incremented once per
non-HTTP(S) entry. -/
def skipped_non_http_count (all_m3u_entries : List Entry) : Nat :=
  (all_m3u_entries.filter fun entry => !is_http_url entry.url).length

/-- The URLs actually probed during a run: `check_url_worker` issues exactly one
`requests.head(url, ...)` (source line 87) per dispatched task, and nothing
else touches the network during checking. -/
def probed_urls (all_m3u_entries : List Entry) : List String :=
  (tasks_to_run all_m3u_entries).map Entry.url

/-- The collected worker results of the pool (source lines 198-219).  Completion
order is nondeterministic; submission order is used here, which fixes one
representative order (only membership and counts are consumed downstream,
plus an explicit sort in `save_valid_m3u`). -/
def worker_results (all_m3u_entries : List Entry) (probe : String → ProbeResult)
    (timeout : Nat) : List (Entry × Bool × String) :=
  (tasks_to_run all_m3u_entries).map fun entry =>
    check_url_worker entry timeout (probe entry.url)

/-- Source lines 213-216: entries whose worker reported `is_valid = True` are
appended to `valid_entries_to_save`. -/
def valid_entries_to_save (all_m3u_entries : List Entry) (probe : String → ProbeResult)
    (timeout : Nat) : List Entry :=
  ((worker_results all_m3u_entries probe timeout).filter fun r => r.2.1).map fun r => r.1

/-- Source lines 217-219: `invalid_links_count`, incremented once per worker
result with `is_valid = False`. -/
def invalid_links_count (all_m3u_entries : List Entry) (probe : String → ProbeResult)
    (timeout : Nat) : Nat :=
  ((worker_results all_m3u_entries probe timeout).filter fun r => !r.2.1).length

/-- Per-entry outcome of the main loop: dispatched entries end up saved or
invalid according to the worker's `is_valid` flag (source lines 213-219);
non-HTTP(S) entries are skipped without dispatch (source lines 188-190). -/
inductive EntryOutcome where
  | saved
  | invalid
  | skippedNonHttp
deriving Repr, DecidableEq

/-- The outcome the main loop assigns to one entry. -/
def entry_outcome (probe : String → ProbeResult) (timeout : Nat) (entry : Entry) :
    EntryOutcome :=
  if is_http_url entry.url then
    if (check_url_worker entry timeout (probe entry.url)).2.1 then .saved else .invalid
  else .skippedNonHttp

/-- One playlist entry as serialized at source lines 137-139: the `#EXTINF`
line when present, then the URL line. -/
def serialize_entry (entry : Entry) : List String :=
  (match entry.extinf with
   | some extinf_line => [extinf_line]
   | none => []) ++ [entry.url]

/-- The sort key relation of source line 134 (`key=lambda x: x['original_line_number']`;
every entry carries the key, so the `float('inf')` default is never used). -/
def entry_le (a b : Entry) : Prop :=
  a.original_line_number ≤ b.original_line_number

instance : DecidableRel entry_le := fun a b =>
  Nat.decLe a.original_line_number b.original_line_number

instance : IsTotal Entry entry_le := ⟨fun a b => Nat.le_total _ _⟩

instance : IsTrans Entry entry_le := ⟨fun _ _ _ => Nat.le_trans⟩

/-- Strict version of `entry_le`, used to state the strict-ascending-order
guarantee. -/
def entry_lt (a b : Entry) : Prop :=
  a.original_line_number < b.original_line_number

instance : IsAntisymm Entry entry_lt :=
  ⟨fun _ _ h h2 => absurd (Nat.lt_trans h h2) (Nat.lt_irrefl _)⟩

/-- Source line 134: `sorted(valid_entries, key=lambda x: x['original_line_number'])`.
Python `sorted` is a stable ascending sort; insertion sort is one. -/
def sort_entries (valid_entries : List Entry) : List Entry :=
  List.insertionSort entry_le valid_entries

/-- The full text the aggregator writes (source lines 136-139): the `#EXTM3U`
header, then each surviving entry in sorted order as metadata line (if any)
followed by URL line. -/
def output_playlist_lines (valid_entries : List Entry) : List String :=
  "#EXTM3U" :: (sort_entries valid_entries).flatMap serialize_entry

/-- Filesystem effects `save_valid_m3u` may perform. -/
inductive FsAction where
  | makedirs (dir : String)
  | write_file (path : String) (lines : List String)
deriving Repr, DecidableEq

/-- External filesystem conditions `save_valid_m3u` runs under: whether
`os.path.exists(output_dir)` holds, whether `os.makedirs` succeeds, and
whether opening/writing the output file succeeds. -/
structure FsEnv where
  dir_exists : Bool
  makedirs_ok : Bool
  write_ok : Bool
deriving Repr, DecidableEq

/-- Python `os.path.join(d, f)` for the directory shapes used here. -/
def os_path_join (d f : String) : String :=
  if d = "" then f else d ++ "/" ++ f

/-- Source line 122: `f"{base_filename_prefix}{today_date}.m3u"`. -/
def output_filename (base_filename_pre today_date : String) : String :=
  base_filename_pre ++ today_date ++ ".m3u"

/-- argparse default of `--output-prefix` (source line 154). -/
def output_prefix_default : String := "valid_zho_"

/-- Source lines 117-144: `save_valid_m3u`.  Returns the saved path (or `none`)
together with the list of filesystem actions performed.  An empty entry list
returns immediately (lines 118-120).  A missing, non-empty output directory
is created, falling back to `"."` when creation fails (lines 123-129).  A
write failure (`IOError`, line 142) yields `none`; the attempted write is not
recorded as a completed action. -/
def save_valid_m3u (valid_entries : List Entry) (output_dir : String)
    (base_filename_pre : String) (today_date : String) (env : FsEnv) :
    Option String × List FsAction :=
  if valid_entries.isEmpty then (none, [])
  else
    let fname := output_filename base_filename_pre today_date
    let attempt_mkdir := !(output_dir == "") && !env.dir_exists
    let mkdir_actions := if attempt_mkdir then [FsAction.makedirs output_dir] else []
    let dir_after := if attempt_mkdir && !env.makedirs_ok then "." else output_dir
    let output_filepath := os_path_join (if dir_after == "" then "." else dir_after) fname
    let lines := output_playlist_lines valid_entries
    if env.write_ok then
      (some output_filepath, mkdir_actions ++ [FsAction.write_file output_filepath lines])
    else
      (none, mkdir_actions)

/-- Source lines 167-278: the exit code chosen by `__main__` once the playlist
text is in hand.  Empty content exits 1 (lines 167-169, "未能获取或读取");
zero parsed entries exit 0 (lines 173-175); any invalid checked link exits 1
(lines 270-272); otherwise 0 (lines 273-278). -/
def main_exit_code (m3u_content_lines_str : List String)
    (probe : String → ProbeResult) (timeout : Nat) : Nat :=
  if m3u_content_lines_str.isEmpty then 1
  else
    let all_m3u_entries := parse_m3u_content_with_extinf_str m3u_content_lines_str
    if all_m3u_entries.isEmpty then 0
    else
      if 0 < invalid_links_count all_m3u_entries probe timeout ∧
          0 < (tasks_to_run all_m3u_entries).length then 1
      else if (tasks_to_run all_m3u_entries).length = 0 ∧
          0 < all_m3u_entries.length then 0
      else 0

/-- The whole process: fetching/reading the playlist either fails (both
`fetch_m3u_from_url` and `read_m3u_from_file` call `sys.exit(1)` on any
exception, source lines 59-61 and 71-73), modelled as `none`, or yields the
content lines handed to `main_exit_code`. -/
def process_exit_code (fetch_result : Option (List String))
    (probe : String → ProbeResult) (timeout : Nat) : Nat :=
  match fetch_result with
  | none => 1
  | some m3u_content_lines_str => main_exit_code m3u_content_lines_str probe timeout

/-- A sample entry used to instantiate theorems with hypotheses. -/
def sampleEntry : Entry :=
  { extinf := some "#EXTINF:-1,Channel A", url := "http://x/y", original_line_number := 1 }

/-- The parser scenario input of §8 of the spec, used to instantiate theorems
with hypotheses. -/
def demo_lines : List String :=
  ["#EXTM3U", "#EXTINF:-1,A", "http://good/1", "", "rtsp://bad/2",
   "#EXTINF:-1,B", "https://good/3"]

/-- C3: the classifier never raises: every network-layer failure during the
probe (timeout, too-many-redirects, connection failure, generic request
failure, or any unexpected exception) yields an Invalid result whose reason
names the failure category, and `check_url_worker` is a total function, so a
`(entry, is_valid, message)` verdict is always returned. -/
theorem c3_network_failures_yield_invalid (entry : Entry) (timeout : Nat)
    (ename emsg : String) :
    check_url_worker entry timeout .timeout = (entry, false, msg_timeout)
    ∧ check_url_worker entry timeout .tooManyRedirects =
        (entry, false, msg_too_many_redirects)
    ∧ check_url_worker entry timeout (.connectionError emsg) =
        (entry, false, msg_connection_error emsg)
    ∧ check_url_worker entry timeout (.requestException ename emsg) =
        (entry, false, msg_request_error ename emsg)
    ∧ check_url_worker entry timeout (.unexpectedError ename emsg) =
        (entry, false, msg_unexpected_error ename emsg) :=
  ⟨rfl, rfl, rfl, rfl, rfl⟩

/-- C7: with zero entries classified Valid/PossiblyValid, `save_valid_m3u`
returns `none` and performs no filesystem action (no directory creation, no
file write), whatever the output directory, filename pieces and filesystem
state. -/
theorem c7_empty_save_no_io (output_dir base_filename_pre today_date : String)
    (env : FsEnv) :
    save_valid_m3u [] output_dir base_filename_pre today_date env = (none, []) :=
  rfl

/-- C9 counterexample: the default output prefix the source configures
(`valid_zho_`, source line 154) is not `valid_`, so a default-configuration
run does not produce `valid_{date}.m3u`. -/
theorem c9_counterexample :
    ¬ (output_prefix_default = "valid_" ∧
       output_filename output_prefix_default "2026-10-12" = "valid_2026-10-12.m3u") := by
  decide

/-- C9 (amended): the default output prefix is `valid_zho_`, so the output
playlist of a default-configuration run is named `valid_zho_{date}.m3u` for
the current date. -/
theorem c9_default_prefix_filename (today_date : String) :
    output_prefix_default = "valid_zho_"
    ∧ output_filename output_prefix_default today_date =
        "valid_zho_" ++ today_date ++ ".m3u" :=
  ⟨rfl, rfl⟩

/-- `re_match_ignorecase` at a literal (non-wildcard), already lower-case
pattern is a prefix test on the lower-cased subject. -/
theorem re_match_literal (pattern s : String) (hne : pattern ≠ "image/.*")
    (hl : pyLower pattern = pattern) :
    re_match_ignorecase pattern s = pyStartsWith (pyLower s) pattern := by
  rw [re_match_ignorecase, if_neg hne, hl]

/-- C1: for a probe ending in HTTP status 200, the worker reports Valid exactly
when the normalised Content-Type (lower-cased, parameter suffix after `;`
stripped) matches the recognized-valid-stream list exactly and
case-sensitively; Invalid with the "not typically streaming" reason when it
matches an ignored-type pattern; and PossiblyValid otherwise.  Membership in
the ignored set is a case-insensitive prefix test against text/html,
application/json, text/plain, image/*, application/pdf, application/xml and
text/xml. -/
theorem c1_classify_status_200 (entry : Entry) (timeout : Nat)
    (content_type_header : String) (location : Option String) :
    ((VALID_CONTENT_TYPES.any fun valid_ct =>
        valid_ct == clean_content_type content_type_header) = true →
      check_url_worker entry timeout (.success 200 (some content_type_header) location) =
        (entry, true, msg_valid 200 content_type_header))
    ∧ ((VALID_CONTENT_TYPES.any fun valid_ct =>
          valid_ct == clean_content_type content_type_header) = false →
        is_ignored_content_type (clean_content_type content_type_header) = true →
        check_url_worker entry timeout (.success 200 (some content_type_header) location) =
          (entry, false, msg_ignored 200 content_type_header))
    ∧ ((VALID_CONTENT_TYPES.any fun valid_ct =>
          valid_ct == clean_content_type content_type_header) = false →
        is_ignored_content_type (clean_content_type content_type_header) = false →
        check_url_worker entry timeout (.success 200 (some content_type_header) location) =
          (entry, true, msg_possible 200 content_type_header))
    ∧ (∀ s : String,
        is_ignored_content_type s =
          (!(s == "") &&
            (pyStartsWith (pyLower (clean_content_type s)) "text/html" ||
             pyStartsWith (pyLower (clean_content_type s)) "application/json" ||
             pyStartsWith (pyLower (clean_content_type s)) "text/plain" ||
             pyStartsWith (pyLower (clean_content_type s)) "image/" ||
             pyStartsWith (pyLower (clean_content_type s)) "application/pdf" ||
             pyStartsWith (pyLower (clean_content_type s)) "application/xml" ||
             pyStartsWith (pyLower (clean_content_type s)) "text/xml"))) := by
  refine ⟨fun hv => ?_, fun hv hi => ?_, fun hv hi => ?_, fun s => ?_⟩
  · simp [check_url_worker, hv]
  · simp [check_url_worker, hv, hi]
  · simp [check_url_worker, hv, hi]
  · by_cases h : s = ""
    · simp [h, is_ignored_content_type]
    · rw [is_ignored_content_type, if_neg h]
      rw [show IGNORED_CONTENT_TYPES_PATTERNS =
        ["text/html", "application/json", "text/plain", "image/.*",
         "application/pdf", "application/xml", "text/xml"] from rfl]
      simp only [List.any_cons, List.any_nil]
      rw [re_match_literal "text/html" _ (by decide) (by decide),
        re_match_literal "application/json" _ (by decide) (by decide),
        re_match_literal "text/plain" _ (by decide) (by decide),
        re_match_literal "application/pdf" _ (by decide) (by decide),
        re_match_literal "application/xml" _ (by decide) (by decide),
        re_match_literal "text/xml" _ (by decide) (by decide),
        show re_match_ignorecase "image/.*" (clean_content_type s) =
          pyStartsWith (pyLower (clean_content_type s)) "image/" from rfl]
      have hb : (s == "") = false := by
        simpa using h
      simp only [hb, Bool.not_false, Bool.true_and, Bool.or_assoc, Bool.or_false]

/-- C1 witness: concrete instances of each branch — `video/mp2t` is Valid,
`text/html` is Invalid as non-streaming, `application/weird-type` is
PossiblyValid. -/
theorem c1_classify_status_200_witness :
    check_url_worker sampleEntry 10 (.success 200 (some "video/mp2t") none) =
      (sampleEntry, true, msg_valid 200 "video/mp2t")
    ∧ check_url_worker sampleEntry 10 (.success 200 (some "text/html") none) =
      (sampleEntry, false, msg_ignored 200 "text/html")
    ∧ check_url_worker sampleEntry 10 (.success 200 (some "application/weird-type") none) =
      (sampleEntry, true, msg_possible 200 "application/weird-type") :=
  ⟨(c1_classify_status_200 sampleEntry 10 "video/mp2t" none).1 (by decide),
   (c1_classify_status_200 sampleEntry 10 "text/html" none).2.1 (by decide) (by decide),
   (c1_classify_status_200 sampleEntry 10 "application/weird-type" none).2.2.1
     (by decide) (by decide)⟩

/-- C10: a probe ending in status 200 with a missing (or empty) Content-Type
header gets the permissive PossiblyValid outcome: the empty normalised
content type is in neither the recognized-valid list nor the ignored set, so
the worker reports `is_valid = True` and the entry joins
`valid_entries_to_save`, hence the saved output. -/
theorem c10_no_content_type_is_possibly_valid (entry : Entry) (timeout : Nat)
    (location : Option String) :
    check_url_worker entry timeout (.success 200 none location) =
      (entry, true, msg_possible 200 "")
    ∧ check_url_worker entry timeout (.success 200 (some "") location) =
      (entry, true, msg_possible 200 "")
    ∧ is_ignored_content_type "" = false
    ∧ (VALID_CONTENT_TYPES.any fun valid_ct => valid_ct == clean_content_type "") = false
    ∧ (∀ e : Entry, is_http_url e.url = true →
        valid_entries_to_save [e] (fun _ => .success 200 none location) timeout = [e]) := by
  refine ⟨rfl, rfl, by decide, by decide, fun e he => ?_⟩
  have h1 : clean_content_type "" ∉ VALID_CONTENT_TYPES := by decide
  have h2 : is_ignored_content_type (clean_content_type "") = false := by decide
  simp [valid_entries_to_save, worker_results, tasks_to_run, he, check_url_worker, h1, h2]

/-- C10 witness: a concrete HTTP entry probed with status 200 and no
Content-Type header survives into the to-save list. -/
theorem c10_no_content_type_is_possibly_valid_witness :
    valid_entries_to_save [sampleEntry] (fun _ => .success 200 none none) 10 =
      [sampleEntry] :=
  (c10_no_content_type_is_possibly_valid sampleEntry 10 none).2.2.2.2 sampleEntry
    (by decide)

/-- Splitting a list by a Boolean predicate partitions its length. -/
theorem length_filter_add_length_filter_not {α : Type} (l : List α) (p : α → Bool) :
    (l.filter p).length + (l.filter fun a => !p a).length = l.length := by
  induction l with
  | nil => rfl
  | cons a l ih =>
    by_cases h : p a <;> simp [List.filter_cons, h, ← ih] <;> omega

/-- C5: the entries dispatched to the concurrent checker are exactly those
whose URL starts with `http://` or `https://`; a non-HTTP(S) entry is never
dispatched, gets the Skipped outcome, and the probed URLs all come from the
dispatched subset, so skipped entries incur zero network calls. -/
theorem c5_dispatch_exactly_http (all_m3u_entries : List Entry)
    (probe : String → ProbeResult) (timeout : Nat) :
    tasks_to_run all_m3u_entries =
        all_m3u_entries.filter (fun entry => is_http_url entry.url)
    ∧ probed_urls all_m3u_entries =
        (all_m3u_entries.filter fun entry => is_http_url entry.url).map Entry.url
    ∧ (∀ entry ∈ all_m3u_entries, is_http_url entry.url = false →
        entry ∉ tasks_to_run all_m3u_entries
        ∧ entry_outcome probe timeout entry = .skippedNonHttp)
    ∧ (∀ entry ∈ all_m3u_entries, is_http_url entry.url = true →
        entry ∈ tasks_to_run all_m3u_entries) := by
  refine ⟨rfl, rfl, fun entry _hm hn => ⟨?_, ?_⟩, fun entry hm hy => ?_⟩
  · simp [tasks_to_run, List.mem_filter, hn]
  · simp [entry_outcome, hn]
  · simp [tasks_to_run, List.mem_filter, hm, hy]

/-- C5 witness: in the spec's scenario playlist the `rtsp://` entry is
skipped and not dispatched. -/
theorem c5_dispatch_exactly_http_witness :
    (⟨none, "rtsp://bad/2", 2⟩ : Entry) ∉
        tasks_to_run (parse_m3u_content_with_extinf_str demo_lines)
    ∧ entry_outcome (fun _ => .timeout) 10 (⟨none, "rtsp://bad/2", 2⟩ : Entry) =
        .skippedNonHttp :=
  (c5_dispatch_exactly_http (parse_m3u_content_with_extinf_str demo_lines)
      (fun _ => .timeout) 10).2.2.1 ⟨none, "rtsp://bad/2", 2⟩ (by decide) (by decide)

/-- C8: the verdict counts partition the parsed entries: saved (Valid or
PossiblyValid) plus invalid plus skipped equals the total number of parsed
entries. -/
theorem c8_counts_partition (all_m3u_entries : List Entry)
    (probe : String → ProbeResult) (timeout : Nat) :
    (valid_entries_to_save all_m3u_entries probe timeout).length
      + invalid_links_count all_m3u_entries probe timeout
      + skipped_non_http_count all_m3u_entries
      = all_m3u_entries.length := by
  have h1 := length_filter_add_length_filter_not
    (worker_results all_m3u_entries probe timeout) (fun r => r.2.1)
  have h2 := length_filter_add_length_filter_not all_m3u_entries
    (fun entry => is_http_url entry.url)
  have h3 : (worker_results all_m3u_entries probe timeout).length =
      (all_m3u_entries.filter fun entry => is_http_url entry.url).length := by
    simp [worker_results, tasks_to_run]
  simp only [valid_entries_to_save, invalid_links_count, skipped_non_http_count,
    List.length_map] at *
  omega

/-- The invalid count never exceeds the number of dispatched tasks. -/
theorem invalid_le_tasks (all_m3u_entries : List Entry)
    (probe : String → ProbeResult) (timeout : Nat) :
    invalid_links_count all_m3u_entries probe timeout ≤
      (tasks_to_run all_m3u_entries).length := by
  have h := List.length_filter_le (fun r => !r.2.1)
    (worker_results all_m3u_entries probe timeout)
  simpa [invalid_links_count, worker_results] using h

/-- C2: the process exit code is 1 when the playlist cannot be fetched or read
at all (including when it yields no content lines), 0 when it parsed to zero
entries, 1 when some checked HTTP(S) entry was judged invalid, and 0 when no
checked entry was judged invalid — in particular also when nothing was
checkable but raw entries existed. -/
theorem c2_exit_codes (m3u_content_lines_str : List String)
    (probe : String → ProbeResult) (timeout : Nat) :
    process_exit_code none probe timeout = 1
    ∧ process_exit_code (some []) probe timeout = 1
    ∧ (m3u_content_lines_str ≠ [] →
        parse_m3u_content_with_extinf_str m3u_content_lines_str = [] →
        process_exit_code (some m3u_content_lines_str) probe timeout = 0)
    ∧ (m3u_content_lines_str ≠ [] →
        0 < invalid_links_count (parse_m3u_content_with_extinf_str m3u_content_lines_str)
              probe timeout →
        process_exit_code (some m3u_content_lines_str) probe timeout = 1)
    ∧ (m3u_content_lines_str ≠ [] →
        invalid_links_count (parse_m3u_content_with_extinf_str m3u_content_lines_str)
            probe timeout = 0 →
        process_exit_code (some m3u_content_lines_str) probe timeout = 0) := by
  refine ⟨rfl, rfl, fun hne hp => ?_, fun hne hinv => ?_, fun hne hinv => ?_⟩
  · simp [process_exit_code, main_exit_code, hne, hp]
  · have htasks : 0 <
        (tasks_to_run (parse_m3u_content_with_extinf_str m3u_content_lines_str)).length :=
      Nat.lt_of_lt_of_le hinv (invalid_le_tasks _ probe timeout)
    have hparse : parse_m3u_content_with_extinf_str m3u_content_lines_str ≠ [] := by
      intro h
      rw [h] at htasks
      simp [tasks_to_run] at htasks
    simp only [process_exit_code, main_exit_code, List.isEmpty_eq_false.mpr hne,
      List.isEmpty_eq_false.mpr hparse, Bool.false_eq_true, if_false]
    rw [if_pos ⟨hinv, htasks⟩]
  · by_cases hp : parse_m3u_content_with_extinf_str m3u_content_lines_str = []
    · simp [process_exit_code, main_exit_code, hne, hp]
    · simp only [process_exit_code, main_exit_code, List.isEmpty_eq_false.mpr hne,
        List.isEmpty_eq_false.mpr hp, Bool.false_eq_true, if_false]
      rw [if_neg (by omega)]
      split <;> rfl

/-- C2 witness: the spec scenario playlist probed with all-timeouts has
invalid checked entries, so the process exits 1. -/
theorem c2_exit_codes_witness :
    process_exit_code (some demo_lines) (fun _ => .timeout) 10 = 1 :=
  (c2_exit_codes demo_lines (fun _ => .timeout) 10).2.2.2.1 (by decide) (by decide)

/-- `parseGo` on a blank line. -/
theorem parseGo_blank (acc : List Entry) (cur : Option String) (line_str : String)
    (rest : List String) (h1 : pyStrip line_str = "") :
    parseGo acc cur (line_str :: rest) = parseGo acc cur rest := by
  simp [parseGo, h1]

/-- `parseGo` on an `#EXTINF:` line. -/
theorem parseGo_extinf (acc : List Entry) (cur : Option String) (line_str : String)
    (rest : List String) (h1 : pyStrip line_str ≠ "")
    (h2 : pyStartsWith (pyStrip line_str) "#EXTINF:" = true) :
    parseGo acc cur (line_str :: rest) = parseGo acc (some (pyStrip line_str)) rest := by
  simp [parseGo, h1, h2]

/-- `parseGo` on another comment line. -/
theorem parseGo_comment (acc : List Entry) (cur : Option String) (line_str : String)
    (rest : List String) (h1 : pyStrip line_str ≠ "")
    (h2 : pyStartsWith (pyStrip line_str) "#EXTINF:" = false)
    (h3 : pyStartsWith (pyStrip line_str) "#" = true) :
    parseGo acc cur (line_str :: rest) = parseGo acc cur rest := by
  simp [parseGo, h1, h2, h3]

/-- `parseGo` on a URL line. -/
theorem parseGo_emit (acc : List Entry) (cur : Option String) (line_str : String)
    (rest : List String) (h1 : pyStrip line_str ≠ "")
    (h2 : pyStartsWith (pyStrip line_str) "#EXTINF:" = false)
    (h3 : pyStartsWith (pyStrip line_str) "#" = false) :
    parseGo acc cur (line_str :: rest) =
      parseGo
        (acc ++
          [{ extinf := cur, url := pyStrip line_str,
             original_line_number := acc.length + 1 }])
        none rest := by
  simp [parseGo, h1, h2, h3]

/-- `parseSpec` on a blank line. -/
theorem parseSpec_blank (n : Nat) (cur : Option String) (line_str : String)
    (rest : List String) (h1 : pyStrip line_str = "") :
    parseSpec n cur (line_str :: rest) = parseSpec n cur rest := by
  simp [parseSpec, h1]

/-- `parseSpec` on an `#EXTINF:` line. -/
theorem parseSpec_extinf (n : Nat) (cur : Option String) (line_str : String)
    (rest : List String) (h1 : pyStrip line_str ≠ "")
    (h2 : pyStartsWith (pyStrip line_str) "#EXTINF:" = true) :
    parseSpec n cur (line_str :: rest) = parseSpec n (some (pyStrip line_str)) rest := by
  simp [parseSpec, h1, h2]

/-- `parseSpec` on another comment line. -/
theorem parseSpec_comment (n : Nat) (cur : Option String) (line_str : String)
    (rest : List String) (h1 : pyStrip line_str ≠ "")
    (h2 : pyStartsWith (pyStrip line_str) "#EXTINF:" = false)
    (h3 : pyStartsWith (pyStrip line_str) "#" = true) :
    parseSpec n cur (line_str :: rest) = parseSpec n cur rest := by
  simp [parseSpec, h1, h2, h3]

/-- `parseSpec` on a URL line. -/
theorem parseSpec_emit (n : Nat) (cur : Option String) (line_str : String)
    (rest : List String) (h1 : pyStrip line_str ≠ "")
    (h2 : pyStartsWith (pyStrip line_str) "#EXTINF:" = false)
    (h3 : pyStartsWith (pyStrip line_str) "#" = false) :
    parseSpec n cur (line_str :: rest) =
      { extinf := cur, url := pyStrip line_str, original_line_number := n } ::
        parseSpec (n + 1) none rest := by
  simp [parseSpec, h1, h2, h3]

/-- The accumulator-passing parser loop agrees with the spec-style parser that
carries the next index explicitly. -/
theorem parseGo_eq_parseSpec (content : List String) :
    ∀ (acc : List Entry) (cur : Option String),
      parseGo acc cur content = acc ++ parseSpec (acc.length + 1) cur content := by
  induction content with
  | nil =>
    intro acc cur
    simp [parseGo, parseSpec]
  | cons line_str rest ih =>
    intro acc cur
    by_cases h1 : pyStrip line_str = ""
    · rw [parseGo_blank _ _ _ _ h1, parseSpec_blank _ _ _ _ h1]
      exact ih acc cur
    · cases h2 : pyStartsWith (pyStrip line_str) "#EXTINF:"
      · cases h3 : pyStartsWith (pyStrip line_str) "#"
        · rw [parseGo_emit _ _ _ _ h1 h2 h3, parseSpec_emit _ _ _ _ h1 h2 h3, ih]
          simp [List.length_append, List.append_assoc]
        · rw [parseGo_comment _ _ _ _ h1 h2 h3, parseSpec_comment _ _ _ _ h1 h2 h3]
          exact ih acc cur
      · rw [parseGo_extinf _ _ _ _ h1 h2, parseSpec_extinf _ _ _ _ h1 h2]
        exact ih acc (some (pyStrip line_str))

/-- Every entry `parseSpec` emits carries the next sequential index. -/
theorem parseSpec_index (content : List String) :
    ∀ (n : Nat) (cur : Option String) (i : Nat)
      (h : i < (parseSpec n cur content).length),
      ((parseSpec n cur content).get ⟨i, h⟩).original_line_number = n + i := by
  induction content with
  | nil =>
    intro n cur i h
    simp [parseSpec] at h
  | cons line_str rest ih =>
    intro n cur i h
    by_cases h1 : pyStrip line_str = ""
    · have heq := parseSpec_blank n cur line_str rest h1
      rw [List.get_of_eq heq ⟨i, h⟩]
      exact ih n cur i (heq ▸ h)
    · cases h2 : pyStartsWith (pyStrip line_str) "#EXTINF:"
      · cases h3 : pyStartsWith (pyStrip line_str) "#"
        · have heq := parseSpec_emit n cur line_str rest h1 h2 h3
          have hcons : i <
              ({ extinf := cur, url := pyStrip line_str, original_line_number := n } ::
                parseSpec (n + 1) none rest).length := heq ▸ h
          rw [List.get_of_eq heq ⟨i, h⟩]
          cases i with
          | zero => simp
          | succ j =>
            have hj : j < (parseSpec (n + 1) none rest).length := by
              simp only [List.length_cons] at hcons
              omega
            simp only [List.get_cons_succ]
            exact (ih (n + 1) none j hj).trans (by omega)
        · have heq := parseSpec_comment n cur line_str rest h1 h2 h3
          rw [List.get_of_eq heq ⟨i, h⟩]
          exact ih n cur i (heq ▸ h)
      · have heq := parseSpec_extinf n cur line_str rest h1 h2
        rw [List.get_of_eq heq ⟨i, h⟩]
        exact ih n (some (pyStrip line_str)) i (heq ▸ h)

/-- C4: the parser behaves exactly as the spec describes — `#EXTINF:` lines
are buffered as pending metadata, other `#` lines are dropped without
clearing it, blank (whitespace-only) lines are ignored, and every remaining
line becomes an Entry carrying the buffered metadata, with `originalIndex`
equal to its 1-based position among emitted entries and the buffer cleared
after emission. -/
theorem c4_parser_matches_spec (content_lines_str : List String) :
    parse_m3u_content_with_extinf_str content_lines_str =
        parseSpec 1 none content_lines_str
    ∧ ∀ (i : Nat) (h : i < (parse_m3u_content_with_extinf_str content_lines_str).length),
        ((parse_m3u_content_with_extinf_str content_lines_str).get
          ⟨i, h⟩).original_line_number = i + 1 := by
  have heq : parse_m3u_content_with_extinf_str content_lines_str =
      parseSpec 1 none content_lines_str := by
    simpa [parse_m3u_content_with_extinf_str] using
      parseGo_eq_parseSpec content_lines_str [] none
  refine ⟨heq, fun i h => ?_⟩
  rw [List.get_of_eq heq ⟨i, h⟩]
  rw [parseSpec_index content_lines_str 1 none i (heq ▸ h)]
  omega

/-- C4 witness: the spec scenario playlist parses to three entries whose
third entry has index 3. -/
theorem c4_parser_matches_spec_witness :
    ((parse_m3u_content_with_extinf_str demo_lines).get ⟨2, by decide⟩).original_line_number
      = 2 + 1 :=
  (c4_parser_matches_spec demo_lines).2 2 (by decide)

/-- `sort_entries` permutes its input. -/
theorem sort_entries_perm (l : List Entry) : List.Perm (sort_entries l) l :=
  List.perm_insertionSort entry_le l

/-- `sort_entries` sorts ascending by `original_line_number`. -/
theorem sort_entries_sorted (l : List Entry) : List.Sorted entry_le (sort_entries l) :=
  List.sorted_insertionSort entry_le l

/-- With pairwise-distinct indices, `sort_entries` sorts strictly ascending. -/
theorem sort_entries_strict (l : List Entry)
    (hd : l.Pairwise fun a b => a.original_line_number ≠ b.original_line_number) :
    List.Pairwise entry_lt (sort_entries l) := by
  have hd' : (sort_entries l).Pairwise
      (fun a b => a.original_line_number ≠ b.original_line_number) :=
    ((sort_entries_perm l).pairwise_iff (fun h => Ne.symm h)).2 hd
  exact List.Pairwise.imp₂ (fun a b hle hne => Nat.lt_of_le_of_ne hle hne)
    (sort_entries_sorted l) hd'

/-- Two permuted lists of entries with pairwise-distinct indices sort to the
same list. -/
theorem sort_entries_eq_of_perm {l1 l2 : List Entry} (hperm : List.Perm l1 l2)
    (hd : l1.Pairwise fun a b => a.original_line_number ≠ b.original_line_number) :
    sort_entries l1 = sort_entries l2 := by
  have hd2 : l2.Pairwise
      (fun a b => a.original_line_number ≠ b.original_line_number) :=
    (hperm.pairwise_iff (fun h => Ne.symm h)).1 hd
  have hp : List.Perm (sort_entries l1) (sort_entries l2) :=
    (sort_entries_perm l1).trans (hperm.trans (sort_entries_perm l2).symm)
  exact List.eq_of_perm_of_sorted hp (sort_entries_strict l1 hd)
    (sort_entries_strict l2 hd2)

/-- C6: for any permutation of the surviving (Valid/PossiblyValid) entries —
i.e. regardless of probe completion order — the saved playlist is the same:
the `#EXTM3U` header, then the entries in strictly ascending
`original_line_number` order, each serialized as its metadata line (when
present) followed by its URL line; and with a writable filesystem,
`save_valid_m3u` writes exactly those lines. -/
theorem c6_output_order_deterministic (l1 l2 : List Entry) (hne : l1 ≠ [])
    (hperm : List.Perm l1 l2)
    (hd : l1.Pairwise fun a b => a.original_line_number ≠ b.original_line_number) :
    output_playlist_lines l1 = output_playlist_lines l2
    ∧ output_playlist_lines l1 =
        "#EXTM3U" :: (sort_entries l1).flatMap serialize_entry
    ∧ List.Pairwise entry_lt (sort_entries l1)
    ∧ List.Perm (sort_entries l1) l1
    ∧ (∀ (output_dir base_filename_pre today_date : String) (de mo : Bool),
        ∃ path,
          save_valid_m3u l1 output_dir base_filename_pre today_date ⟨de, mo, true⟩ =
            (some path,
              (if (!(output_dir == "") && !de) = true then
                [FsAction.makedirs output_dir] else []) ++
              [FsAction.write_file path (output_playlist_lines l1)])) := by
  have hempty : l1.isEmpty = false := by
    cases l1 with
    | nil => exact absurd rfl hne
    | cons a t => rfl
  refine ⟨?_, rfl, sort_entries_strict l1 hd, sort_entries_perm l1,
    fun output_dir base_filename_pre today_date de mo => ?_⟩
  · unfold output_playlist_lines
    rw [sort_entries_eq_of_perm hperm hd]
  · exact ⟨_, by
      simp only [save_valid_m3u, hempty, Bool.false_eq_true, if_false, if_true]
      rfl⟩

/-- C6 witness: two concrete completion orders of the same two surviving
entries produce identical playlist text. -/
theorem c6_output_order_deterministic_witness :
    output_playlist_lines
        [⟨some "#EXTINF:-1,B", "https://good/3", 3⟩, sampleEntry] =
      output_playlist_lines
        [sampleEntry, ⟨some "#EXTINF:-1,B", "https://good/3", 3⟩] :=
  (c6_output_order_deterministic
    [⟨some "#EXTINF:-1,B", "https://good/3", 3⟩, sampleEntry]
    [sampleEntry, ⟨some "#EXTINF:-1,B", "https://good/3", 3⟩]
    (by decide) (by decide) (by decide)).1

end M3uChecker
